import Mathlib

/-!
# Shallow embedding of the messages-worker-sdk client library

This file embeds the Go client library (`messages.go`, `workers.go`,
`health.go`) into Lean 4 and proves properties of its request
construction, local validation, and response decoding.

Modelling conventions:
* Machine `int` and `time.Duration` become `Int` (a duration counts
  nanoseconds, as in Go).
* An HTTP response is modelled after it has been fully read: status code
  plus the body as a string.  `io.ReadAll` failures are a transport-level
  concern outside the embedded contract.
* The remote server, Go's `json.Marshal` on request payloads, and
  `json.Unmarshal` at each response type are external collaborators; they
  are gathered in an environment record `Env` over which theorems
  quantify.
* Each operation returns, besides its Go result, the list of HTTP
  requests it sent, so that "issues no network call" is a statement about
  that trace.
* Go reports most failures as untyped `fmt.Errorf` values and only
  `*APIError` as a distinguished type.  The embedding tags each error
  with the site class that constructs it (local validation, payload
  serialization, transport, API status, body decode), which refines the
  Go values without changing any control flow.
-/

namespace MWSdk

/-- A JSON-like value: the opaque `ObjectBody interface{}` payload of a
message request is an arbitrary serializable value. -/
inductive JsonValue where
  | null : JsonValue
  | bool (b : Bool) : JsonValue
  | num (n : Int) : JsonValue
  | str (s : String) : JsonValue
  | arr (elems : List JsonValue) : JsonValue
  | obj (fields : List (String × JsonValue)) : JsonValue

/-- `MessageRequest` (messages.go): a single message request.  `Priority`
and `Topic` are string types in Go. -/
structure MessageRequest where
  ItemID : String
  Priority : String
  Topic : String
  CallbackURL : String
  ObjectBody : JsonValue

/-- `MessageResponse` (messages.go). -/
structure MessageResponse where
  ID : String
  Status : String
  ItemID : String
  Priority : String
  Topic : String
deriving DecidableEq

/-- `BulkMessageRequest` (messages.go). -/
structure BulkMessageRequest where
  Messages : List MessageRequest

/-- `BulkMessageResponse` (messages.go). -/
structure BulkMessageResponse where
  Status : String
  Count : Int
  Messages : List MessageResponse
deriving DecidableEq

/-- `WorkerInfo` (workers.go). -/
structure WorkerInfo where
  ID : String
  QueueName : String
  Status : String
  StartedAt : String
deriving DecidableEq

/-- `PriorityWorkerInfo` (workers.go). -/
structure PriorityWorkerInfo where
  Count : Int
  QueueDepth : Int
  Workers : List WorkerInfo
deriving DecidableEq

/-- `WorkerStatusResponse` (workers.go). -/
structure WorkerStatusResponse where
  TotalWorkers : Int
  LowPriority : PriorityWorkerInfo
  MediumPriority : PriorityWorkerInfo
  HighPriority : PriorityWorkerInfo
  AllWorkers : List WorkerInfo
deriving DecidableEq

/-- `ScaleWorkersResponse` (workers.go). -/
structure ScaleWorkersResponse where
  Status : String
  Message : String
  Priority : String
  Count : Int
  Action : String
deriving DecidableEq

/-- `RemoveAllWorkersResponse` (workers.go). -/
structure RemoveAllWorkersResponse where
  Status : String
  Message : String
  TotalRemoved : Int
  Errors : List String
deriving DecidableEq

/-- `HealthResponse` (health.go). -/
structure HealthResponse where
  Status : String
deriving DecidableEq

/-- The errors the library returns.  In Go only `*APIError` is a
distinguished type; the other constructors tag the `fmt.Errorf` sites by
the spec's taxonomy (each carries the Go error message). -/
inductive SdkError where
  | validation (msg : String) : SdkError
  | serialization (msg : String) : SdkError
  | transport (msg : String) : SdkError
  | api (StatusCode : Nat) (Message : String) : SdkError
  | decode (msg : String) : SdkError
deriving DecidableEq

/-- `IsAPIError` (messages.go): the `err.(*APIError)` type assertion. -/
def IsAPIError : SdkError → Bool
  | .api _ _ => true
  | _ => false

/-- An outbound HTTP request as `doRequest` constructs it: method, full
URL (base URL ++ path), the JSON-serialized body if any, and whether the
`Content-Type: application/json` header was set. -/
structure HttpRequest where
  method : String
  url : String
  body : Option String
  contentTypeJson : Bool
deriving DecidableEq

/-- An HTTP response after its body has been fully read. -/
structure HttpResponse where
  statusCode : Nat
  body : String
deriving DecidableEq

/-- A request body passed to `doRequest` (`body interface{}` at the call
sites present in the library). -/
inductive RequestBody where
  | messageReq (req : MessageRequest) : RequestBody
  | bulkReq (req : BulkMessageRequest) : RequestBody

/-- The external collaborators of one call: the remote server (an
outcome — transport error message or response — for every request),
Go's `json.Marshal` on request payloads, and `json.Unmarshal` at each
response type used by the library. -/
structure Env where
  server : HttpRequest → Except String HttpResponse
  marshal : RequestBody → Except String String
  decodeMessageResponse : String → Except String MessageResponse
  decodeBulkMessageResponse : String → Except String BulkMessageResponse
  decodeWorkerStatusResponse : String → Except String WorkerStatusResponse
  decodeScaleWorkersResponse : String → Except String ScaleWorkersResponse
  decodeRemoveAllWorkersResponse : String → Except String RemoveAllWorkersResponse

/-- `Config` (messages.go).  `Timeout` counts nanoseconds
(`time.Duration`). -/
structure Config where
  BaseURL : String
  Timeout : Int
deriving DecidableEq

/-- Go's `time.Second` in nanoseconds. -/
def second : Int := 1000000000

/-- `DefaultConfig` (messages.go). -/
def DefaultConfig : Config :=
  { BaseURL := "http://localhost:8083", Timeout := 30 * second }

/-- `Client` (messages.go): `baseURL`, the timeout installed on the
embedded `http.Client`, and the `timeout` field. -/
structure Client where
  baseURL : String
  httpClientTimeout : Int
  timeout : Int
deriving DecidableEq

/-- `NewClient` (messages.go): substitutes `DefaultConfig()` when the
config is nil, then replaces a zero timeout by 30 seconds. -/
def NewClient (config : Option Config) : Client :=
  let config := match config with
    | none => DefaultConfig
    | some cfg => cfg
  let config := if config.Timeout = 0 then { config with Timeout := 30 * second } else config
  { baseURL := config.BaseURL
    httpClientTimeout := config.Timeout
    timeout := config.Timeout }

/-- `NewClientWithDefaults` (messages.go). -/
def NewClientWithDefaults : Client := NewClient (some DefaultConfig)

/-- `doRequest` (messages.go): marshals the body if present (failure is
fatal for the call and no request is sent), builds the request against
`baseURL ++ path` with the JSON content type exactly when a body is
present, and performs it once; a transport failure is wrapped as
"request failed".  The second component is the list of network calls
issued. -/
def doRequest (c : Client) (env : Env) (method path : String)
    (body : Option RequestBody) : Except SdkError HttpResponse × List HttpRequest :=
  match body with
  | some b =>
    match env.marshal b with
    | .error e => (.error (.serialization ("failed to marshal request body: " ++ e)), [])
    | .ok jsonData =>
      let req : HttpRequest :=
        { method := method, url := c.baseURL ++ path
          body := some jsonData, contentTypeJson := true }
      match env.server req with
      | .error e => (.error (.transport ("request failed: " ++ e)), [req])
      | .ok resp => (.ok resp, [req])
  | none =>
    let req : HttpRequest :=
      { method := method, url := c.baseURL ++ path
        body := none, contentTypeJson := false }
    match env.server req with
    | .error e => (.error (.transport ("request failed: " ++ e)), [req])
    | .ok resp => (.ok resp, [req])

/-- `parseResponse` (messages.go), instantiated at a non-nil target:
status ≥ 400 yields `APIError{status, rawBody}`; otherwise the body is
unmarshalled into the target shape (`decode` is Go's `json.Unmarshal`
at that shape) and a parse failure is wrapped as a decode error. -/
def parseResponse {α : Type} (resp : HttpResponse)
    (decode : String → Except String α) : Except SdkError α :=
  if resp.statusCode ≥ 400 then
    .error (.api resp.statusCode resp.body)
  else
    match decode resp.body with
    | .error e => .error (.decode ("failed to unmarshal response: " ++ e))
    | .ok v => .ok v

/-- `parseResponse` (messages.go), instantiated at a nil target: status
≥ 400 yields `APIError{status, rawBody}`; otherwise the call succeeds
without parsing the body. -/
def parseResponseNoTarget (resp : HttpResponse) : Except SdkError Unit :=
  if resp.statusCode ≥ 400 then
    .error (.api resp.statusCode resp.body)
  else
    .ok ()

/-- `PostMessage` (messages.go): nil request fails "message request
cannot be nil" (a local validation, no network call); otherwise POST the
request to `/api/v1/messages` and decode a `MessageResponse`. -/
def PostMessage (c : Client) (env : Env) (req : Option MessageRequest) :
    Except SdkError MessageResponse × List HttpRequest :=
  match req with
  | none => (.error (.validation "message request cannot be nil"), [])
  | some req =>
    match doRequest c env "POST" "/api/v1/messages" (some (.messageReq req)) with
    | (.error e, t) => (.error e, t)
    | (.ok resp, t) =>
      match parseResponse resp env.decodeMessageResponse with
      | .error e => (.error e, t)
      | .ok messageResp => (.ok messageResp, t)

/-- `PostBulkMessages` (messages.go): nil request or empty `Messages`
fails with a local validation error; otherwise POST to
`/api/v1/messages/bulk` and decode a `BulkMessageResponse`. -/
def PostBulkMessages (c : Client) (env : Env) (req : Option BulkMessageRequest) :
    Except SdkError BulkMessageResponse × List HttpRequest :=
  match req with
  | none => (.error (.validation "bulk message request cannot be nil"), [])
  | some req =>
    if req.Messages.length = 0 then
      (.error (.validation "no messages provided"), [])
    else
      match doRequest c env "POST" "/api/v1/messages/bulk" (some (.bulkReq req)) with
      | (.error e, t) => (.error e, t)
      | (.ok resp, t) =>
        match parseResponse resp env.decodeBulkMessageResponse with
        | .error e => (.error e, t)
        | .ok bulkResp => (.ok bulkResp, t)

/-- `PostMessageWithDefaults` (messages.go). -/
def PostMessageWithDefaults (c : Client) (env : Env) (itemID callbackURL : String)
    (objectBody : JsonValue) : Except SdkError MessageResponse × List HttpRequest :=
  PostMessage c env (some
    { ItemID := itemID, Priority := "medium", Topic := "pullrequests"
      CallbackURL := callbackURL, ObjectBody := objectBody })

/-- `PostHighPriorityMessage` (messages.go). -/
def PostHighPriorityMessage (c : Client) (env : Env) (itemID callbackURL : String)
    (objectBody : JsonValue) : Except SdkError MessageResponse × List HttpRequest :=
  PostMessage c env (some
    { ItemID := itemID, Priority := "high", Topic := "pullrequests"
      CallbackURL := callbackURL, ObjectBody := objectBody })

/-- `PostLowPriorityMessage` (messages.go). -/
def PostLowPriorityMessage (c : Client) (env : Env) (itemID callbackURL : String)
    (objectBody : JsonValue) : Except SdkError MessageResponse × List HttpRequest :=
  PostMessage c env (some
    { ItemID := itemID, Priority := "low", Topic := "pullrequests"
      CallbackURL := callbackURL, ObjectBody := objectBody })

/-- `GetWorkerStatus` (workers.go): GET `/api/v1/workers/status`, decode
a `WorkerStatusResponse`. -/
def GetWorkerStatus (c : Client) (env : Env) :
    Except SdkError WorkerStatusResponse × List HttpRequest :=
  match doRequest c env "GET" "/api/v1/workers/status" none with
  | (.error e, t) => (.error e, t)
  | (.ok resp, t) =>
    match parseResponse resp env.decodeWorkerStatusResponse with
    | .error e => (.error e, t)
    | .ok statusResp => (.ok statusResp, t)

/-- `ScaleWorkers` (workers.go): rejects an empty priority, then a
priority outside low/medium/high, then a zero count, all before any
network call; otherwise POST (no body) to
`/api/v1/workers/scale/{priority}?count={count}` and decode a
`ScaleWorkersResponse`. -/
def ScaleWorkers (c : Client) (env : Env) (priority : String) (count : Int) :
    Except SdkError ScaleWorkersResponse × List HttpRequest :=
  if priority = "" then
    (.error (.validation "priority is required"), [])
  else if priority ≠ "low" ∧ priority ≠ "medium" ∧ priority ≠ "high" then
    (.error (.validation "priority must be 'low', 'medium', or 'high'"), [])
  else if count = 0 then
    (.error (.validation "count cannot be 0"), [])
  else
    let path := "/api/v1/workers/scale/" ++ priority ++ "?count=" ++ toString count
    match doRequest c env "POST" path none with
    | (.error e, t) => (.error e, t)
    | (.ok resp, t) =>
      match parseResponse resp env.decodeScaleWorkersResponse with
      | .error e => (.error e, t)
      | .ok scaleResp => (.ok scaleResp, t)

/-- `AddWorkers` (workers.go): requires a positive count, then delegates
to `ScaleWorkers` with the given count. -/
def AddWorkers (c : Client) (env : Env) (priority : String) (count : Int) :
    Except SdkError ScaleWorkersResponse × List HttpRequest :=
  if count ≤ 0 then
    (.error (.validation "count must be greater than 0"), [])
  else
    ScaleWorkers c env priority count

/-- `RemoveWorkers` (workers.go): requires a positive count, then
delegates to `ScaleWorkers` with the negated count. -/
def RemoveWorkers (c : Client) (env : Env) (priority : String) (count : Int) :
    Except SdkError ScaleWorkersResponse × List HttpRequest :=
  if count ≤ 0 then
    (.error (.validation "count must be greater than 0"), [])
  else
    ScaleWorkers c env priority (-count)

/-- `RemoveAllWorkers` (workers.go): POST (no body) to
`/api/v1/workers/remove-all`, decode a `RemoveAllWorkersResponse`. -/
def RemoveAllWorkers (c : Client) (env : Env) :
    Except SdkError RemoveAllWorkersResponse × List HttpRequest :=
  match doRequest c env "POST" "/api/v1/workers/remove-all" none with
  | (.error e, t) => (.error e, t)
  | (.ok resp, t) =>
    match parseResponse resp env.decodeRemoveAllWorkersResponse with
    | .error e => (.error e, t)
    | .ok removeResp => (.ok removeResp, t)

/-- `GetWorkerCount` (workers.go): calls `GetWorkerStatus` first, then
switches on the priority; an unknown priority is rejected only after the
status call. -/
def GetWorkerCount (c : Client) (env : Env) (priority : String) :
    Except SdkError Int × List HttpRequest :=
  match GetWorkerStatus c env with
  | (.error e, t) => (.error e, t)
  | (.ok status, t) =>
    if priority = "low" then (.ok status.LowPriority.Count, t)
    else if priority = "medium" then (.ok status.MediumPriority.Count, t)
    else if priority = "high" then (.ok status.HighPriority.Count, t)
    else (.error (.validation ("invalid priority: " ++ priority)), t)

/-- `GetTotalWorkerCount` (workers.go). -/
def GetTotalWorkerCount (c : Client) (env : Env) :
    Except SdkError Int × List HttpRequest :=
  match GetWorkerStatus c env with
  | (.error e, t) => (.error e, t)
  | (.ok status, t) => (.ok status.TotalWorkers, t)

/-- `CheckHealth` (health.go): GET `/health`; a non-200 status yields an
`APIError` whose message is synthesized from the status code; a 200
yields `HealthResponse{Status: "OK"}` without parsing the body. -/
def CheckHealth (c : Client) (env : Env) :
    Except SdkError HealthResponse × List HttpRequest :=
  match doRequest c env "GET" "/health" none with
  | (.error e, t) => (.error e, t)
  | (.ok resp, t) =>
    if resp.statusCode ≠ 200 then
      (.error (.api resp.statusCode
        ("health check failed with status " ++ toString resp.statusCode)), t)
    else
      (.ok { Status := "OK" }, t)

/-- `IsHealthy` (health.go): true iff `CheckHealth` returned no error. -/
def IsHealthy (c : Client) (env : Env) : Bool × List HttpRequest :=
  match CheckHealth c env with
  | (.ok _, t) => (true, t)
  | (.error _, t) => (false, t)

/-- `Ping` (health.go): alias for `CheckHealth`. -/
def Ping (c : Client) (env : Env) :
    Except SdkError HealthResponse × List HttpRequest :=
  CheckHealth c env

/-! ## Concrete fixtures for witnesses and counterexamples -/

/-- The request `CheckHealth` sends: GET on `/health`, no body. -/
def healthRequest (c : Client) : HttpRequest :=
  { method := "GET", url := c.baseURL ++ "/health"
    body := none, contentTypeJson := false }

/-- The request `GetWorkerStatus` sends: GET on `/api/v1/workers/status`,
no body. -/
def workerStatusRequest (c : Client) : HttpRequest :=
  { method := "GET", url := c.baseURL ++ "/api/v1/workers/status"
    body := none, contentTypeJson := false }

/-- A sample worker status, mirroring the repository's test fixture. -/
def sampleStatus : WorkerStatusResponse :=
  { TotalWorkers := 6
    LowPriority := { Count := 2, QueueDepth := 5, Workers := [] }
    MediumPriority := { Count := 2, QueueDepth := 0, Workers := [] }
    HighPriority := { Count := 2, QueueDepth := 3, Workers := [] }
    AllWorkers := [] }

/-- An environment whose server answers every request with the given
response and whose marshaller and decoders always succeed with fixed
values. -/
def okEnv (resp : HttpResponse) : Env :=
  { server := fun _ => .ok resp
    marshal := fun _ => .ok "serialized"
    decodeMessageResponse := fun _ =>
      .ok { ID := "msg-123", Status := "published", ItemID := "test-123"
            Priority := "high", Topic := "pullrequests" }
    decodeBulkMessageResponse := fun _ =>
      .ok { Status := "published", Count := 2, Messages := [] }
    decodeWorkerStatusResponse := fun _ => .ok sampleStatus
    decodeScaleWorkersResponse := fun _ =>
      .ok { Status := "success", Message := "added workers", Priority := "high"
            Count := 2, Action := "added" }
    decodeRemoveAllWorkersResponse := fun _ =>
      .ok { Status := "success", Message := "removed", TotalRemoved := 0, Errors := [] } }

/-- The default client (`NewClient(nil)`). -/
def testClient : Client := NewClient none

/-- An environment built over a plain 200 response. -/
def testEnvOk : Env := okEnv { statusCode := 200, body := "wsbody" }

/-! ## Theorems -/

/-- C1 (counterexample): calling `GetWorkerCount` with the invalid
priority "urgent" against a server that answers the status request with
200 does return a validation error, but only after issuing the
`GetWorkerStatus` network call — the request trace is non-empty,
contradicting "issues no network call ... does not call GetWorkerStatus
before rejecting the priority". -/
theorem GetWorkerCount_network_call_on_invalid_priority :
    GetWorkerCount testClient testEnvOk "urgent" =
      (.error (.validation "invalid priority: urgent"), [workerStatusRequest testClient]) ∧
    [workerStatusRequest testClient] ≠ ([] : List HttpRequest) := by
  constructor
  · rfl
  · intro h
    exact absurd h (by simp)

/-- C1 (amended): for a priority outside low/medium/high,
`GetWorkerCount` first performs the `GetWorkerStatus` round trip (its
request trace is exactly the status call's trace); if the status call
succeeds it then returns the "invalid priority" validation error, and if
the status call fails, that failure is returned instead. -/
theorem GetWorkerCount_invalid_priority_after_status (c : Client) (env : Env)
    (p : String) (hp : p ≠ "low" ∧ p ≠ "medium" ∧ p ≠ "high") :
    (GetWorkerCount c env p).2 = (GetWorkerStatus c env).2 ∧
    (∀ s t, GetWorkerStatus c env = (.ok s, t) →
      GetWorkerCount c env p = (.error (.validation ("invalid priority: " ++ p)), t)) ∧
    (∀ e t, GetWorkerStatus c env = (.error e, t) →
      GetWorkerCount c env p = (.error e, t)) := by
  obtain ⟨h1, h2, h3⟩ := hp
  refine ⟨?_, ?_, ?_⟩
  · rcases hgs : GetWorkerStatus c env with ⟨r, t⟩
    rcases r with e | s <;> simp [GetWorkerCount, hgs, h1, h2, h3]
  · intro s t hgs
    simp [GetWorkerCount, hgs, h1, h2, h3]
  · intro e t hgs
    simp [GetWorkerCount, hgs]

/-- C1 (witness): the amended theorem applied at the concrete priority
"urgent", the default client and a fixed 200-answering environment. -/
theorem GetWorkerCount_invalid_priority_after_status_witness :
    (("urgent" ≠ "low" ∧ "urgent" ≠ "medium" ∧ "urgent" ≠ "high") : Prop) ∧
    ((GetWorkerCount testClient testEnvOk "urgent").2 =
        (GetWorkerStatus testClient testEnvOk).2 ∧
      (∀ s t, GetWorkerStatus testClient testEnvOk = (.ok s, t) →
        GetWorkerCount testClient testEnvOk "urgent" =
          (.error (.validation ("invalid priority: " ++ "urgent")), t)) ∧
      (∀ e t, GetWorkerStatus testClient testEnvOk = (.error e, t) →
        GetWorkerCount testClient testEnvOk "urgent" = (.error e, t))) :=
  ⟨by decide,
   GetWorkerCount_invalid_priority_after_status testClient testEnvOk "urgent" (by decide)⟩

/-- C2 (counterexample): `CheckHealth` against a server answering 201
(a 2xx status) returns an `APIError` carrying 201, so an `APIError` is
constructed for a 2xx response. -/
theorem CheckHealth_apiError_on_201 :
    CheckHealth testClient (okEnv { statusCode := 201, body := "Created" }) =
      (.error (.api 201 "health check failed with status 201"),
        [healthRequest testClient]) ∧
    IsAPIError (.api 201 "health check failed with status 201") = true ∧
    200 ≤ 201 ∧ 201 < 300 := by
  refine ⟨rfl, rfl, by decide, by decide⟩

/-- C2 (amended): the generic response decoder constructs an `APIError`
only when the status code is at least 400 (hence never for a 2xx
response), and the error then carries exactly the status code and the
raw body; `CheckHealth`, however, whose success test is status = 200,
returns an `APIError` for every response status other than 200,
including 2xx statuses such as 201. -/
theorem apiError_non2xx_except_CheckHealth :
    (∀ (resp : HttpResponse) (α : Type) (d : String → Except String α) (n : Nat) (m : String),
      parseResponse resp d = .error (.api n m) →
        400 ≤ resp.statusCode ∧ n = resp.statusCode ∧ m = resp.body) ∧
    (∀ (resp : HttpResponse) (n : Nat) (m : String),
      parseResponseNoTarget resp = .error (.api n m) →
        400 ≤ resp.statusCode ∧ n = resp.statusCode ∧ m = resp.body) ∧
    (∀ (c : Client) (env : Env) (s : Nat) (b : String),
      env.server (healthRequest c) = .ok { statusCode := s, body := b } → s ≠ 200 →
      CheckHealth c env =
        (.error (.api s ("health check failed with status " ++ toString s)),
          [healthRequest c])) := by
  refine ⟨?_, ?_, ?_⟩
  · intro resp α d n m h
    unfold parseResponse at h
    by_cases hs : 400 ≤ resp.statusCode
    · rw [if_pos hs] at h
      injection h with h
      injection h with h1 h2
      exact ⟨hs, h1.symm, h2.symm⟩
    · rw [if_neg hs] at h
      rcases hd : d resp.body with e | v <;> rw [hd] at h
      · injection h with h
        exact absurd h (by simp)
      · exact absurd h (by simp)
  · intro resp n m h
    unfold parseResponseNoTarget at h
    by_cases hs : 400 ≤ resp.statusCode
    · rw [if_pos hs] at h
      injection h with h
      injection h with h1 h2
      exact ⟨hs, h1.symm, h2.symm⟩
    · rw [if_neg hs] at h
      exact absurd h (by simp)
  · intro c env s b hs hne
    have hs2 : env.server
        { method := "GET", url := c.baseURL ++ "/health"
          body := none, contentTypeJson := false } =
        Except.ok { statusCode := s, body := b } := hs
    have hd : doRequest c env "GET" "/health" none =
        (.ok { statusCode := s, body := b }, [healthRequest c]) := by
      simp only [doRequest]
      rw [hs2]
      rfl
    simp [CheckHealth, hd, hne]

/-- C2 (witness): the amended theorem applied at a 500 response for the
decoder parts and at a 500 health response for the `CheckHealth` part. -/
theorem apiError_non2xx_except_CheckHealth_witness :
    (400 ≤ (500 : Nat) ∧ (500 : Nat) = 500 ∧
      "Service Unavailable" = "Service Unavailable") ∧
    (400 ≤ (500 : Nat) ∧ (500 : Nat) = 500 ∧
      "Service Unavailable" = "Service Unavailable") ∧
    CheckHealth testClient (okEnv { statusCode := 500, body := "Service Unavailable" }) =
      (.error (.api 500 ("health check failed with status " ++ toString (500 : Nat))),
        [healthRequest testClient]) :=
  ⟨apiError_non2xx_except_CheckHealth.1
      { statusCode := 500, body := "Service Unavailable" } HealthResponse
      (fun _ => .error "ignored") 500 "Service Unavailable" rfl,
   apiError_non2xx_except_CheckHealth.2.1
      { statusCode := 500, body := "Service Unavailable" } 500 "Service Unavailable" rfl,
   apiError_non2xx_except_CheckHealth.2.2 testClient
      (okEnv { statusCode := 500, body := "Service Unavailable" }) 500
      "Service Unavailable" rfl (by decide)⟩

/-- C3: for a status code of at least 400 the decoder returns an
`APIError` carrying the status code and the raw body, for every target
decoder alike (no JSON parsing of the error body); below 400 with a
target, a deserialization failure yields a decode error wrapping the
parse failure; below 400 with no target the call succeeds without
parsing the body. -/
theorem parseResponse_error_classification (resp : HttpResponse) :
    (400 ≤ resp.statusCode →
      (∀ (α : Type) (d : String → Except String α),
        parseResponse resp d = .error (.api resp.statusCode resp.body)) ∧
      parseResponseNoTarget resp = .error (.api resp.statusCode resp.body)) ∧
    (resp.statusCode < 400 →
      (∀ (α : Type) (d : String → Except String α) (e : String),
        d resp.body = .error e →
        parseResponse resp d = .error (.decode ("failed to unmarshal response: " ++ e))) ∧
      parseResponseNoTarget resp = .ok ()) := by
  constructor
  · intro hs
    refine ⟨fun α d => ?_, ?_⟩ <;>
      simp [parseResponse, parseResponseNoTarget, if_pos hs]
  · intro hs
    have hn : ¬ 400 ≤ resp.statusCode := not_le.mpr hs
    refine ⟨fun α d e hd => ?_, ?_⟩ <;>
      simp [parseResponse, parseResponseNoTarget, if_neg hn, *]

/-- C3 (witness): the classification applied at a 500 response with body
"Service Unavailable" and at a 200 response with an unparseable body. -/
theorem parseResponse_error_classification_witness :
    parseResponse { statusCode := 500, body := "Service Unavailable" }
        (fun _ => (.error "bad" : Except String MessageResponse)) =
      .error (.api 500 "Service Unavailable") ∧
    parseResponseNoTarget { statusCode := 500, body := "Service Unavailable" } =
      .error (.api 500 "Service Unavailable") ∧
    parseResponse { statusCode := 200, body := "plain" }
        (fun _ => (.error "bad" : Except String MessageResponse)) =
      .error (.decode ("failed to unmarshal response: " ++ "bad")) ∧
    parseResponseNoTarget { statusCode := 200, body := "plain" } = .ok () :=
  ⟨((parseResponse_error_classification _).1 (by decide)).1 _ _,
   ((parseResponse_error_classification _).1 (by decide)).2,
   ((parseResponse_error_classification _).2 (by decide)).1 _ _ _ rfl,
   ((parseResponse_error_classification _).2 (by decide)).2⟩

/-- C4: for a priority outside low/medium/high (the empty string
included) or a zero count, `ScaleWorkers` returns a validation error
with an empty request trace — validation happens before any request is
sent. -/
theorem ScaleWorkers_rejects_invalid_input (c : Client) (env : Env)
    (p : String) (count : Int)
    (h : (p ≠ "low" ∧ p ≠ "medium" ∧ p ≠ "high") ∨ count = 0) :
    ∃ msg, ScaleWorkers c env p count = (.error (.validation msg), []) := by
  unfold ScaleWorkers
  by_cases h0 : p = ""
  · rw [if_pos h0]
    exact ⟨_, rfl⟩
  · rw [if_neg h0]
    by_cases h1 : p ≠ "low" ∧ p ≠ "medium" ∧ p ≠ "high"
    · rw [if_pos h1]
      exact ⟨_, rfl⟩
    · rw [if_neg h1]
      have hc : count = 0 := by
        rcases h with h | h
        · exact absurd h h1
        · exact h
      rw [if_pos hc]
      exact ⟨_, rfl⟩

/-- C4 (witness): applied at the invalid priority "urgent", at the empty
priority, and at a zero count with a valid priority. -/
theorem ScaleWorkers_rejects_invalid_input_witness :
    ((("urgent" ≠ "low" ∧ "urgent" ≠ "medium" ∧ "urgent" ≠ "high") ∨ (5 : Int) = 0) ∧
      ∃ msg, ScaleWorkers testClient testEnvOk "urgent" 5 =
        (.error (.validation msg), [])) ∧
    ((("" ≠ "low" ∧ "" ≠ "medium" ∧ "" ≠ "high") ∨ (5 : Int) = 0) ∧
      ∃ msg, ScaleWorkers testClient testEnvOk "" 5 =
        (.error (.validation msg), [])) ∧
    ((("high" ≠ "low" ∧ "high" ≠ "medium" ∧ "high" ≠ "high") ∨ (0 : Int) = 0) ∧
      ∃ msg, ScaleWorkers testClient testEnvOk "high" 0 =
        (.error (.validation msg), [])) :=
  ⟨⟨Or.inl (by decide),
    ScaleWorkers_rejects_invalid_input testClient testEnvOk "urgent" 5 (Or.inl (by decide))⟩,
   ⟨Or.inl (by decide),
    ScaleWorkers_rejects_invalid_input testClient testEnvOk "" 5 (Or.inl (by decide))⟩,
   ⟨Or.inr rfl,
    ScaleWorkers_rejects_invalid_input testClient testEnvOk "high" 0 (Or.inr rfl)⟩⟩

/-- C5: `AddWorkers` and `RemoveWorkers` reject a non-positive count
with a validation error and an empty request trace; for a positive count
`AddWorkers` is exactly `ScaleWorkers` at that count and `RemoveWorkers`
is exactly `ScaleWorkers` at the negated count. -/
theorem AddWorkers_RemoveWorkers_delegate (c : Client) (env : Env)
    (p : String) (count : Int) :
    (count ≤ 0 →
      AddWorkers c env p count =
        (.error (.validation "count must be greater than 0"), []) ∧
      RemoveWorkers c env p count =
        (.error (.validation "count must be greater than 0"), [])) ∧
    (0 < count →
      AddWorkers c env p count = ScaleWorkers c env p count ∧
      RemoveWorkers c env p count = ScaleWorkers c env p (-count)) := by
  constructor
  · intro h
    constructor <;> simp [AddWorkers, RemoveWorkers, if_pos h]
  · intro h
    have h2 : ¬ count ≤ 0 := not_le.mpr h
    constructor <;> simp [AddWorkers, RemoveWorkers, if_neg h2]

/-- C5 (witness): the delegation applied at counts -1 and 3. -/
theorem AddWorkers_RemoveWorkers_delegate_witness :
    ((-1 : Int) ≤ 0 ∧
      AddWorkers testClient testEnvOk "high" (-1) =
        (.error (.validation "count must be greater than 0"), []) ∧
      RemoveWorkers testClient testEnvOk "high" (-1) =
        (.error (.validation "count must be greater than 0"), [])) ∧
    ((0 : Int) < 3 ∧
      AddWorkers testClient testEnvOk "high" 3 = ScaleWorkers testClient testEnvOk "high" 3 ∧
      RemoveWorkers testClient testEnvOk "high" 3 =
        ScaleWorkers testClient testEnvOk "high" (-3)) :=
  ⟨⟨by decide,
    (AddWorkers_RemoveWorkers_delegate testClient testEnvOk "high" (-1)).1 (by decide)⟩,
   ⟨by decide,
    (AddWorkers_RemoveWorkers_delegate testClient testEnvOk "high" 3).2 (by decide)⟩⟩

/-- C6: a nil message request, a nil bulk request, and a bulk request
with an empty message list are each rejected with a validation error and
an empty request trace. -/
theorem Post_validation (c : Client) (env : Env) :
    PostMessage c env none = (.error (.validation "message request cannot be nil"), []) ∧
    PostBulkMessages c env none =
      (.error (.validation "bulk message request cannot be nil"), []) ∧
    (∀ req : BulkMessageRequest, req.Messages = [] →
      PostBulkMessages c env (some req) = (.error (.validation "no messages provided"), [])) := by
  refine ⟨rfl, rfl, fun req h => ?_⟩
  simp [PostBulkMessages, h]

/-- C6 (witness): applied at the default client, a fixed environment,
and the empty bulk request. -/
theorem Post_validation_witness :
    PostMessage testClient testEnvOk none =
      (.error (.validation "message request cannot be nil"), []) ∧
    PostBulkMessages testClient testEnvOk none =
      (.error (.validation "bulk message request cannot be nil"), []) ∧
    (BulkMessageRequest.mk []).Messages = [] ∧
    PostBulkMessages testClient testEnvOk (some (BulkMessageRequest.mk [])) =
      (.error (.validation "no messages provided"), []) :=
  ⟨(Post_validation testClient testEnvOk).1,
   (Post_validation testClient testEnvOk).2.1,
   rfl,
   (Post_validation testClient testEnvOk).2.2 (BulkMessageRequest.mk []) rfl⟩

/-- C7: when the server answers the health request with status `s` and
any body `b`, `CheckHealth` returns `HealthResponse{Status := "OK"}` if
`s = 200` — independently of the body, so without parsing it — and
otherwise an `APIError` carrying `s` whose message is synthesized from
the status code, not the raw body `b`. -/
theorem CheckHealth_success_and_failure (c : Client) (env : Env) (s : Nat) (b : String)
    (hs : env.server (healthRequest c) = .ok { statusCode := s, body := b }) :
    (s = 200 → CheckHealth c env = (.ok { Status := "OK" }, [healthRequest c])) ∧
    (s ≠ 200 → CheckHealth c env =
      (.error (.api s ("health check failed with status " ++ toString s)),
        [healthRequest c])) := by
  have hs2 : env.server
      { method := "GET", url := c.baseURL ++ "/health"
        body := none, contentTypeJson := false } =
      Except.ok { statusCode := s, body := b } := hs
  have hd : doRequest c env "GET" "/health" none =
      (.ok { statusCode := s, body := b }, [healthRequest c]) := by
    simp only [doRequest]
    rw [hs2]
    rfl
  constructor
  · intro h
    simp [CheckHealth, hd, h]
  · intro h
    simp [CheckHealth, hd, h]

/-- C7 (witness): applied at a 200/"OK" plain-text response. -/
theorem CheckHealth_success_and_failure_witness :
    (okEnv { statusCode := 200, body := "OK" }).server (healthRequest testClient) =
      .ok { statusCode := 200, body := "OK" } ∧
    ((200 = 200 → CheckHealth testClient (okEnv { statusCode := 200, body := "OK" }) =
        (.ok { Status := "OK" }, [healthRequest testClient])) ∧
     (200 ≠ 200 → CheckHealth testClient (okEnv { statusCode := 200, body := "OK" }) =
        (.error (.api 200 ("health check failed with status " ++ toString (200 : Nat))),
          [healthRequest testClient]))) :=
  ⟨rfl, CheckHealth_success_and_failure testClient
    (okEnv { statusCode := 200, body := "OK" }) 200 "OK" rfl⟩

/-- C8: for every client and environment, `IsHealthy` returns true
exactly when `CheckHealth` returns no error. -/
theorem IsHealthy_iff_CheckHealth_ok (c : Client) (env : Env) :
    (IsHealthy c env).1 = true ↔ ∃ r, (CheckHealth c env).1 = .ok r := by
  rcases h : CheckHealth c env with ⟨r, t⟩
  rcases r with e | v <;> simp [IsHealthy, h]

/-- C9: `ScaleWorkers("high", 2)` issues exactly one HTTP request, a
POST with no body to `/api/v1/workers/scale/high?count=2` relative to
the configured base URL — for every environment, i.e. whatever the
server answers. -/
theorem ScaleWorkers_high_2_single_request (c : Client) (env : Env) :
    (ScaleWorkers c env "high" 2).2 =
      [{ method := "POST", url := c.baseURL ++ "/api/v1/workers/scale/high?count=2"
         body := none, contentTypeJson := false }] := by
  unfold ScaleWorkers
  rw [if_neg (by decide : ¬ ("high" : String) = "")]
  rw [if_neg (by decide :
    ¬ (("high" : String) ≠ "low" ∧ ("high" : String) ≠ "medium" ∧ ("high" : String) ≠ "high"))]
  rw [if_neg (by decide : ¬ (2 : Int) = 0)]
  rw [show ("/api/v1/workers/scale/" ++ "high" ++ "?count=" ++ toString (2 : Int)) =
        "/api/v1/workers/scale/high?count=2" from rfl]
  simp only [doRequest]
  rcases env.server
      { method := "POST", url := c.baseURL ++ "/api/v1/workers/scale/high?count=2"
        body := none, contentTypeJson := false } with e | resp
  · rfl
  · rcases hp : parseResponse resp env.decodeScaleWorkersResponse with e2 | v <;> simp [hp]

/-- C10: `NewClient` applies the default timeout but not the default
base URL to a non-nil config: a zero timeout is replaced by 30 seconds
(on both the stored timeout and the HTTP client's timeout), the base URL
is copied verbatim — an empty one stays empty — and only a nil config
receives the localhost default base URL. -/
theorem NewClient_default_timeout_not_baseURL (cfg : Config) :
    (cfg.Timeout = 0 →
      (NewClient (some cfg)).timeout = 30 * second ∧
      (NewClient (some cfg)).httpClientTimeout = 30 * second) ∧
    (NewClient (some cfg)).baseURL = cfg.BaseURL ∧
    (cfg.BaseURL = "" → (NewClient (some cfg)).baseURL = "") ∧
    (NewClient none).baseURL = "http://localhost:8083" := by
  refine ⟨?_, ?_, ?_, rfl⟩
  · intro h
    simp [NewClient, h]
  · by_cases h : cfg.Timeout = 0 <;> simp [NewClient, h]
  · intro h
    by_cases ht : cfg.Timeout = 0 <;> simp [NewClient, h, ht]

/-- C10 (witness): applied at the config with empty base URL and zero
timeout. -/
theorem NewClient_default_timeout_not_baseURL_witness :
    ((Config.mk "" 0).Timeout = 0 ∧
      (NewClient (some (Config.mk "" 0))).timeout = 30 * second ∧
      (NewClient (some (Config.mk "" 0))).httpClientTimeout = 30 * second) ∧
    (NewClient (some (Config.mk "" 0))).baseURL = (Config.mk "" 0).BaseURL ∧
    ((Config.mk "" 0).BaseURL = "" ∧ (NewClient (some (Config.mk "" 0))).baseURL = "") ∧
    (NewClient none).baseURL = "http://localhost:8083" :=
  ⟨⟨rfl, (NewClient_default_timeout_not_baseURL (Config.mk "" 0)).1 rfl⟩,
   (NewClient_default_timeout_not_baseURL (Config.mk "" 0)).2.1,
   ⟨rfl, (NewClient_default_timeout_not_baseURL (Config.mk "" 0)).2.2.1 rfl⟩,
   (NewClient_default_timeout_not_baseURL (Config.mk "" 0)).2.2.2⟩

end MWSdk
